import Mathlib

/-!
Verification development for the storyboard-to-video pipeline of the
comicra repository.  The embedding covers the scene-decomposition ingest
(`generateStoryboardFromPages` in services/videoGeminiService.ts), the pure
prompt templates (`generateSeedancePrompt` and friends), the orchestrator
handlers of components/VideoProducer.tsx (`handleGenerateStoryboard`,
`handleRegenerateFrame`, `handleCreateVeoVideo`) and the Veo polling loop
(`generateVeoVideo`).  External AI services are modelled as oracle
parameters returning `Except`; JavaScript numbers that can carry fractional
service output are `ℚ`, integer indices are `ℤ`, and JS string truthiness
(empty string is falsy) is modelled explicitly.  Usage-ledger bookkeeping
(`addUsageRecord`) carries no scene state and is omitted.
-/

namespace Comicra

/-! ### Decimal string rendering (JavaScript `Number.prototype.toString`) -/

/-- Character for a single decimal digit, `'0'` + d. -/
def digitChar (d : ℕ) : Char := Char.ofNat (48 + d)

/-- Inverse of `digitChar` on decimal digits. -/
def charToDigit (c : Char) : ℕ := c.toNat - 48

/-- Little-endian decimal digits of `n`, computed with explicit fuel so the
definition is structural (and kernel-reducible). -/
def digitsAuxF : ℕ → ℕ → List ℕ
  | _, 0 => []
  | 0, _ + 1 => []
  | f + 1, n + 1 => (n + 1) % 10 :: digitsAuxF f ((n + 1) / 10)

/-- Decimal rendering of a natural number, as JavaScript `String(n)`. -/
def natToString : ℕ → String
  | 0 => "0"
  | n + 1 => String.mk (((digitsAuxF (n + 1) (n + 1)).reverse).map digitChar)

/-- Decimal parsing, used only as a left inverse of `natToString`. -/
def stringToNat (s : String) : ℕ :=
  s.data.foldl (fun acc c => 10 * acc + charToDigit c) 0

theorem charToDigit_digitChar : ∀ d < 10, charToDigit (digitChar d) = d := by decide

theorem digitsAuxF_lt (f : ℕ) : ∀ (n : ℕ), ∀ d ∈ digitsAuxF f n, d < 10 := by
  induction f with
  | zero => intro n; cases n <;> simp [digitsAuxF]
  | succ f ih =>
    intro n
    cases n with
    | zero => simp [digitsAuxF]
    | succ m =>
      simp only [digitsAuxF, List.mem_cons]
      rintro d (rfl | hd)
      · exact Nat.mod_lt _ (by norm_num)
      · exact ih _ d hd

theorem foldr_digitsAuxF (f : ℕ) : ∀ n ≤ f,
    (digitsAuxF f n).foldr (fun d acc => 10 * acc + d) 0 = n := by
  induction f with
  | zero =>
    intro n hn
    interval_cases n
    simp [digitsAuxF]
  | succ f ih =>
    intro n hn
    cases n with
    | zero => simp [digitsAuxF]
    | succ m =>
      have hlt : (m + 1) / 10 < m + 1 := Nat.div_lt_self (Nat.succ_pos m) (by norm_num)
      have hdiv : (m + 1) / 10 ≤ f := by omega
      simp only [digitsAuxF, List.foldr_cons]
      rw [ih _ hdiv]
      omega

theorem foldl_map_digitChar (l : List ℕ) : ∀ (a : ℕ), (∀ d ∈ l, d < 10) →
    (l.map digitChar).foldl (fun acc c => 10 * acc + charToDigit c) a
      = l.foldl (fun acc d => 10 * acc + d) a := by
  induction l with
  | nil => intro a _; rfl
  | cons d rest ih =>
    intro a hd
    simp only [List.map_cons, List.foldl_cons]
    rw [charToDigit_digitChar d (hd d (List.mem_cons_self d rest))]
    exact ih _ (fun x hx => hd x (List.mem_cons_of_mem d hx))

theorem stringToNat_natToString (n : ℕ) : stringToNat (natToString n) = n := by
  cases n with
  | zero => decide
  | succ m =>
    show ((digitsAuxF (m + 1) (m + 1)).reverse.map digitChar).foldl
        (fun acc c => 10 * acc + charToDigit c) 0 = m + 1
    rw [foldl_map_digitChar _ _ (fun d hd =>
      digitsAuxF_lt (m + 1) (m + 1) d (List.mem_reverse.mp hd))]
    rw [List.foldl_reverse]
    exact foldr_digitsAuxF (m + 1) (m + 1) le_rfl

theorem natToString_injective : Function.Injective natToString := by
  intro a b h
  have h2 := congrArg stringToNat h
  rwa [stringToNat_natToString, stringToNat_natToString] at h2

/-! ### Data model

Mirrors the `VideoModelId`, `Character`, `InitialSceneData` and `VideoScene`
types as used by services/videoGeminiService.ts and
components/VideoProducer.tsx.  Optional TS fields are `Option`; a missing or
empty string is falsy in the JS guards, captured by `strTruthy`. -/

/-- The four target video backends (TS `VideoModelId`). -/
inductive VideoModelId where
  | seedance
  | hailuo
  | veo
  | kling
deriving DecidableEq, Repr

/-- The slice of a `Character` consumed by the pipeline
(`Pick<Character, 'name' | 'description'>`); a TS `undefined` description is
modelled as the (equally falsy) empty string. -/
structure CharacterInfo where
  name : String
  description : String
deriving DecidableEq, Repr

/-- A decomposition result item as parsed from the service JSON, before
enrichment (`Omit<InitialSceneData, 'recommendedModel' | 'reasoning'>`).
`duration` is a raw JS number, possibly fractional. -/
structure RawPanel where
  sceneDescription : String
  narrative : String
  duration : ℚ
  charactersInScene : List String
  sourcePageIndex : ℤ
deriving DecidableEq, Repr

/-- An enriched decomposition item (TS `InitialSceneData`): duration has been
through `Math.min(Math.round(·), 10)` and the model recommendation is
attached. -/
structure InitialSceneData where
  sceneDescription : String
  narrative : String
  duration : ℤ
  charactersInScene : List String
  sourcePageIndex : ℤ
  recommendedModel : VideoModelId
  reasoning : String
deriving DecidableEq, Repr

/-- The per-backend prompt record (TS `Record<VideoModelId, string>`). -/
structure ModelPrompts where
  seedance : String
  hailuo : String
  veo : String
  kling : String
deriving DecidableEq, Repr

/-- The `videoGenerationStatus` state machine values. -/
inductive VGStatus where
  | idle
  | pending
  | done
  | error
deriving DecidableEq, Repr

/-- A scene of the storyboard (TS `VideoScene`) as constructed and patched by
`VideoProducer.tsx`. -/
structure VideoScene where
  id : String
  description : String
  duration : ℤ
  sourcePageIndex : ℤ
  charactersInScene : List String
  recommendedModel : Option VideoModelId
  reasoning : Option String
  startFrame : Option String
  endFrame : Option String
  prompts : Option ModelPrompts
  isLoading : Bool
  videoGenerationStatus : VGStatus
  videoGenerationProgress : Option String
  generatedVideoUrl : Option String
deriving DecidableEq, Repr

/-- Placeholder default used only as the `List.getD` fallback in theorem
statements; never an input to the embedded operations. -/
def defaultScene : VideoScene :=
  { id := "", description := "", duration := 0, sourcePageIndex := 0
    charactersInScene := [], recommendedModel := none, reasoning := none
    startFrame := none, endFrame := none, prompts := none
    isLoading := false, videoGenerationStatus := VGStatus.idle
    videoGenerationProgress := none, generatedVideoUrl := none }

/-- JS truthiness of an optional string: `undefined` and `""` are falsy. -/
def strTruthy : Option String → Bool
  | none => false
  | some s => !(s == "")

/-! ### Scene ids

`handleGenerateStoryboard` assigns `id: Date.now().toString() + i` while
building the placeholder batch; the timestamp is modelled as a single natural
number shared by the whole (synchronous) batch construction. -/

/-- The id given to the `i`-th placeholder scene of a batch stamped `ts`. -/
def sceneId (ts i : ℕ) : String := natToString ts ++ natToString i

theorem string_data_append (s t : String) : (s ++ t).data = s.data ++ t.data := by
  cases s; cases t; rfl

theorem string_eq_of_data {s t : String} (h : s.data = t.data) : s = t := by
  cases s; cases t; exact congrArg String.mk h

theorem sceneId_inj {ts i j : ℕ} (h : sceneId ts i = sceneId ts j) : i = j := by
  have hd := congrArg String.data h
  simp only [sceneId, string_data_append] at hd
  have hcancel := List.append_cancel_left hd
  exact natToString_injective (string_eq_of_data hcancel)

/-! ### Decomposition ingest (`generateStoryboardFromPages`) -/

/-- JavaScript `Math.round`: round half towards positive infinity. -/
def jsRound (q : ℚ) : ℤ := ⌊q + 1 / 2⌋

/-- The ingest clamp `Math.min(Math.round(panel.duration), 10)` applied in
`generateStoryboardFromPages`. -/
def clampDuration (q : ℚ) : ℤ := min (jsRound q) 10

/-- Enrichment of one parsed panel inside `generateStoryboardFromPages`:
spread the panel, clamp the duration, attach the recommendation. -/
def enrichPanel (p : RawPanel) (model : VideoModelId) (reasoning : String) :
    InitialSceneData :=
  { sceneDescription := p.sceneDescription
    narrative := p.narrative
    duration := clampDuration p.duration
    charactersInScene := p.charactersInScene
    sourcePageIndex := p.sourcePageIndex
    recommendedModel := model
    reasoning := reasoning }

/-- Outcome of one `recommendVideoModel` external call: the transport layer
can reject (`generateContent` throws), the returned text can fail to parse
(`JSON.parse` throws inside the local try), or a recommendation is parsed. -/
inductive RecommendOutcome where
  | transportError (msg : String)
  | parseFailure
  | parsed (model : VideoModelId) (reasoning : String)

/-- Model of `recommendVideoModel` in videoGeminiService.ts: only a parse
failure is caught locally and replaced by the seedance fallback; a transport
failure propagates to the caller as an error. -/
def recommendVideoModel : RecommendOutcome → Except String (VideoModelId × String)
  | RecommendOutcome.transportError m => Except.error m
  | RecommendOutcome.parseFailure =>
      Except.ok (VideoModelId.seedance, "Default recommendation due to an error.")
  | RecommendOutcome.parsed m r => Except.ok (m, r)

/-- The `panels.map(async panel => ...)` enrichment loop of
`generateStoryboardFromPages`; `rec i` is the outcome of the `i`-th
recommendation call, and any error short-circuits (the surrounding
`Promise.all` rejects). -/
def enrichPanels (rec : ℕ → RecommendOutcome) :
    ℕ → List RawPanel → Except String (List InitialSceneData)
  | _, [] => Except.ok []
  | i, p :: rest => do
    let mr ← recommendVideoModel (rec i)
    let tail ← enrichPanels rec (i + 1) rest
    pure (enrichPanel p mr.1 mr.2 :: tail)

/-- Model of `generateStoryboardFromPages`: `parsed` is the outcome of
`JSON.parse(response.text)`, `rec` the per-panel recommendation outcomes.
Both the parse failure and any rejection of the enrichment `Promise.all`
land in the same catch block, which rethrows a fixed message. -/
def generateStoryboardFromPages (parsed : Except String (List RawPanel))
    (rec : ℕ → RecommendOutcome) : Except String (List InitialSceneData) :=
  match parsed with
  | Except.error _ => Except.error "Failed to get a valid storyboard from AI."
  | Except.ok panels =>
    match enrichPanels rec 0 panels with
    | Except.error _ => Except.error "Failed to get a valid storyboard from AI."
    | Except.ok out => Except.ok out

/-! ### Prompt templates (`generateAllModelPrompts` and helpers)

Transcribed from the template literals of videoGeminiService.ts; `${x}`
interpolation of numbers uses the decimal rendering of `toString`. -/

/-- The `getCharacterAnchors` helper: one `- character:` line per scene
character, with the roster description or the `'No description'` fallback
(the TS `||` also replaces an empty description). -/
def getCharacterAnchors (scene : InitialSceneData)
    (allCharacters : List CharacterInfo) : String :=
  String.intercalate "\n" (scene.charactersInScene.map (fun charName =>
    match allCharacters.find? (fun c => c.name == charName) with
    | some c =>
        "- character: " ++ charName ++ ", " ++
          (if c.description == "" then "No description" else c.description)
    | none => "- character: " ++ charName ++ ", No description"))

def generateSeedancePrompt (scene : InitialSceneData)
    (allCharacters : List CharacterInfo) : String :=
  let charAnchors := getCharacterAnchors scene allCharacters
  "Title: Scene " ++ toString (scene.sourcePageIndex + 1) ++ "\n" ++
  "Duration: " ++ toString scene.duration ++
    "s  Aspect: 16:9  Style: cinematic, modern webtoon/anime style\n" ++
  "Consistency anchors:\n" ++
  charAnchors ++ "\n" ++
  "- mood: [auto-detect from scene]\n" ++
  "\n" ++
  "Shot 1 (0-" ++ toString scene.duration ++ "s):\n" ++
  "- action: " ++ scene.sceneDescription ++ ". " ++ scene.narrative ++ ".\n" ++
  "- camera: [auto-detect from scene, cinematic]\n" ++
  "- include anchors: all characters in scene\n" ++
  "\n" ++
  "Negative:\n" ++
  "- avoid: text artifacts, logos, watermarks, bad anatomy\n"

def generateHailuoPrompt (scene : InitialSceneData)
    (_allCharacters : List CharacterInfo) : String :=
  "Task: Animate a short clip from a webtoon panel: " ++ scene.sceneDescription ++ "\n" ++
  "Length: " ++ toString scene.duration ++ "s  Aspect: 16:9\n" ++
  "Action physics:\n" ++
  "- body mechanics: " ++ scene.narrative ++ ", with realistic weight and momentum.\n" ++
  "- speed profile: natural acceleration and deceleration.\n" ++
  "- environment forces: subtle ambient motion.\n" ++
  "\n" ++
  "Camera:\n" ++
  "- rig: cinematic, dynamic camera that enhances the action.\n" ++
  "- lens: 35mm\n" ++
  "- move: subtle dolly or pan to follow action.\n" ++
  "\n" ++
  "Look:\n" ++
  "- style: vibrant, modern webtoon/anime, high contrast.\n" ++
  "- lighting: cinematic lighting, rim lights, detailed shadows.\n" ++
  "\n" ++
  "Negative:\n" ++
  "- avoid: limb bending artifacts, background wobble, static comic look\n"

def generateVeoPrompt (scene : InitialSceneData)
    (_allCharacters : List CharacterInfo) : String :=
  "Title: Webtoon Scene " ++ toString (scene.sourcePageIndex + 1) ++ "\n" ++
  "Duration: " ++ toString scene.duration ++
    "s  Aspect: 16:9  Style: High-quality anime scene, cinematic, detailed background.\n" ++
  "Visual:\n" ++
  "- Shot 1 (0-" ++ toString scene.duration ++ "s): " ++ scene.sceneDescription ++
    ". Action to perform: " ++ scene.narrative ++ ".\n" ++
  "\n" ++
  "Audio:\n" ++
  "- sfx: [appropriate ambient sounds for the scene]\n" ++
  "- music: [instrumental music matching the mood]\n" ++
  "\n" ++
  "Negative:\n" ++
  "- avoid: text, speech bubbles, panel borders, photorealism.\n"

def generateKlingPrompt (scene : InitialSceneData)
    (_allCharacters : List CharacterInfo) : String :=
  let charLocks := String.intercalate ", " scene.charactersInScene
  "Mode: High  Length: " ++ toString scene.duration ++
    "s  Aspect: 16:9  Style: anime, cinematic\n" ++
  "Reference images:\n" ++
  "- subject: [The provided webtoon panel is the primary style and character reference]\n" ++
  "Lock:\n" ++
  "- keep: [" ++ charLocks ++ " hairstyle, color, outfit, face]\n" ++
  "- do not change: character designs from reference.\n" ++
  "\n" ++
  "Shot plan:\n" ++
  "- Shot 1 (0-" ++ toString scene.duration ++ "s): " ++ scene.sceneDescription ++
    ". During the shot, " ++ scene.narrative ++ ".\n" ++
  "\n" ++
  "Camera & Look:\n" ++
  "- lens [35mm], movement [subtle, cinematic], lighting [dramatic, source-aware]\n" ++
  "\n" ++
  "Negative:\n" ++
  "- avoid: ref drift, extra accessories, background text\n"

/-- Model of `generateAllModelPrompts`: the TS function is `async` but
performs no awaited I/O — it is a pure record of the four templates. -/
def generateAllModelPrompts (scene : InitialSceneData)
    (characters : List CharacterInfo) : ModelPrompts :=
  { seedance := generateSeedancePrompt scene characters
    hailuo := generateHailuoPrompt scene characters
    veo := generateVeoPrompt scene characters
    kling := generateKlingPrompt scene characters }

/-! ### Storyboard orchestration (`handleGenerateStoryboard`) -/

/-- The placeholder scene built for the `i`-th panel in
`handleGenerateStoryboard` (`isLoading: true`, `videoGenerationStatus:
'idle'`, frames and prompts absent). -/
def mkPlaceholder (ts i : ℕ) (panel : InitialSceneData) : VideoScene :=
  { id := sceneId ts i
    description := panel.sceneDescription
    duration := panel.duration
    sourcePageIndex := panel.sourcePageIndex
    charactersInScene := panel.charactersInScene
    recommendedModel := some panel.recommendedModel
    reasoning := some panel.reasoning
    startFrame := none
    endFrame := none
    prompts := none
    isLoading := true
    videoGenerationStatus := VGStatus.idle
    videoGenerationProgress := none
    generatedVideoUrl := none }

/-- The `initialSceneData.map((panel, i) => ...)` placeholder batch, with the
running index made explicit. -/
def mkPlaceholdersAux (ts : ℕ) : ℕ → List InitialSceneData → List VideoScene
  | _, [] => []
  | i, p :: rest => mkPlaceholder ts i p :: mkPlaceholdersAux ts (i + 1) rest

/-- The placeholder scene list published by `setScenes(placeholderScenes)`. -/
def mkPlaceholders (ts : ℕ) (panels : List InitialSceneData) : List VideoScene :=
  mkPlaceholdersAux ts 0 panels

/-- The single state-patch shape used by every `setScenes(prev => prev.map(s
=> s.id === id ? {...} : s))` update in VideoProducer.tsx. -/
def patchById (pid : String) (f : VideoScene → VideoScene)
    (scenes : List VideoScene) : List VideoScene :=
  scenes.map (fun s => if s.id == pid then f s else s)

/-- The per-scene completion patch of the build loop: populate frames and
prompts and clear `isLoading`. -/
def completeScenePatch (pid sf ef : String) (pr : ModelPrompts) :
    List VideoScene → List VideoScene :=
  patchById pid (fun s =>
    { s with startFrame := some sf, endFrame := some ef,
             prompts := some pr, isLoading := false })

/-- The sequential `for` loop of `handleGenerateStoryboard`: for panel `i`,
await the start frame (`sf i`), compute all prompts, await the end frame
(`ef i`), then patch the scene whose id is `sceneId ts i`.  The first
rejected await escapes the loop (to the surrounding catch). -/
def buildLoop (ts : ℕ) (roster : List CharacterInfo)
    (sf ef : ℕ → Except String String) :
    ℕ → List InitialSceneData → List VideoScene → Except String (List VideoScene)
  | _, [], scenes => Except.ok scenes
  | i, panel :: rest, scenes => do
    let startFrame ← sf i
    let allPrompts := generateAllModelPrompts panel roster
    let endFrame ← ef i
    buildLoop ts roster sf ef (i + 1) rest
      (completeScenePatch (sceneId ts i) startFrame endFrame allPrompts scenes)

/-- Model of `handleGenerateStoryboard`: the scene list it leaves behind.
`decompRes` is the settled result of `generateStoryboardFromPages`; `sf i` /
`ef i` the outcomes of start and end frame synthesis for scene `i`.  Any
failure of decomposition or of the build loop reaches the single catch
block, which runs `setScenes([])`. -/
def handleGenerateStoryboard (ts : ℕ) (roster : List CharacterInfo)
    (decompRes : Except String (List InitialSceneData))
    (sf ef : ℕ → Except String String) : List VideoScene :=
  match decompRes with
  | Except.error _ => []
  | Except.ok panels =>
    match buildLoop ts roster sf ef 0 panels (mkPlaceholders ts panels) with
    | Except.error _ => []
    | Except.ok scenes => scenes

/-! ### Frame regeneration (`handleRegenerateFrame`) -/

/-- Which frame a regeneration request targets (`'start' | 'end'`). -/
inductive FrameType where
  | startFrame
  | endFrame
deriving DecidableEq, Repr

/-- The frame of `s` selected by `ft`. -/
def frameOf (s : VideoScene) : FrameType → Option String
  | FrameType.startFrame => s.startFrame
  | FrameType.endFrame => s.endFrame

/-- The computed-key update `{ ...s, [frameType === 'start' ? 'startFrame' :
'endFrame']: newFrame }`. -/
def setFrame (s : VideoScene) : FrameType → String → VideoScene
  | FrameType.startFrame, v => { s with startFrame := some v }
  | FrameType.endFrame, v => { s with endFrame := some v }

/-- Model of `handleRegenerateFrame`: look the scene up by id, return
unchanged when the scene or the targeted frame is missing (or the frame is
the falsy empty string), and otherwise patch exactly the targeted frame on
success, or leave all scenes untouched when `regenerateVideoFrame` rejects
(the catch only alerts). -/
def handleRegenerateFrame (scenes : List VideoScene) (sid : String)
    (ft : FrameType) (regenRes : Except String String) : List VideoScene :=
  match scenes.find? (fun s => s.id == sid) with
  | none => scenes
  | some sceneToRegen =>
    if strTruthy (frameOf sceneToRegen ft) then
      match regenRes with
      | Except.error _ => scenes
      | Except.ok newFrame => patchById sid (fun s => setFrame s ft newFrame) scenes
    else scenes

/-! ### Veo video job (`generateVeoVideo` and `handleCreateVeoVideo`) -/

/-- A snapshot of the long-running operation object: the `done` flag, the
`error` field and the download uri
(`operation.response?.generatedVideos?.[0]?.video?.uri`). -/
structure VeoOp where
  done : Bool
  errorMsg : Option String
  uri : Option String
deriving DecidableEq, Repr

/-- The rotating progress messages of `generateVeoVideo`. -/
def progressMessages : List String :=
  ["Casting characters...",
   "Setting up the scene...",
   "Director is shouting \x27Action!\x27...",
   "Rendering photons...",
   "Compositing layers...",
   "Adding final touches..."]

/-- The browser blob-URL created for the downloaded artifact
(`URL.createObjectURL`), modelled as a deterministic tagging of the blob. -/
def createObjectURL (blob : String) : String := "blob:" ++ blob

/-- The polling `while (!operation.done)` loop: `ops` is the sequence of
operation snapshots observed (the head being the submission result, each
subsequent one a poll result), `k` the running `pollCount`.  Returns the
terminal snapshot and the rotating messages emitted before each poll; `none`
models the loop never observing a completed operation (it would poll
forever). -/
def drive : ℕ → List VeoOp → Option (VeoOp × List String)
  | _, [] => none
  | k, op :: rest =>
    if op.done then some (op, [])
    else
      match drive (k + 1) rest with
      | none => none
      | some (t, ms) =>
          some (t, progressMessages.getD (k % progressMessages.length) "" :: ms)

/-- Model of `generateVeoVideo`: `submit` is the outcome of
`ai.models.generateVideos` (an error models the call throwing), `fetch` the
outcome of downloading a given uri (an error carries `statusText`).  Returns
`none` when the polling loop never terminates, otherwise the list of
progress strings passed to the callback together with the settled result
(the object URL of the downloaded blob, or the thrown error message). -/
def generateVeoVideo (submit : Except String (List VeoOp))
    (fetch : String → Except String String) :
    Option (List String × Except String String) :=
  match submit with
  | Except.error e => some (["Starting video generation..."], Except.error e)
  | Except.ok ops =>
    match drive 0 ops with
    | none => none
    | some (t, ms) =>
      match t.errorMsg with
      | some m =>
          some ("Starting video generation..." :: ms,
            Except.error ("Video generation failed: " ++ m))
      | none =>
        match t.uri with
        | none =>
            some ("Starting video generation..." :: ms,
              Except.error "Video generation completed, but no download link was provided.")
        | some u =>
          match fetch u with
          | Except.error st =>
              some ("Starting video generation..." :: ms ++ ["Fetching video..."],
                Except.error ("Failed to download video: " ++ st))
          | Except.ok blob =>
              some ("Starting video generation..." :: ms ++ ["Fetching video..."],
                Except.ok (createObjectURL blob))

/-- The veo prompt of a scene, `scene.prompts?.veo`. -/
def veoPromptOf (s : VideoScene) : Option String := s.prompts.map (fun p => p.veo)

/-- The only guard of `handleCreateVeoVideo`:
`if (!veoPrompt || !scene.startFrame) return;`. -/
def runGuard (scene : VideoScene) : Bool :=
  strTruthy (veoPromptOf scene) && strTruthy scene.startFrame

/-- Everything `handleCreateVeoVideo` does once the guard has passed and
`generateVeoVideo` has settled with progress messages `r.1` and result
`r.2`: the initial pending patch, one progress patch per callback message,
then the terminal done/error patch. -/
def runSettle (scenes : List VideoScene) (scene : VideoScene)
    (r : List String × Except String String) : List VideoScene :=
  let s1 := patchById scene.id (fun s =>
    { s with videoGenerationStatus := VGStatus.pending,
             videoGenerationProgress := some "Initializing..." }) scenes
  let s2 := r.1.foldl (fun acc m =>
    patchById scene.id (fun s => { s with videoGenerationProgress := some m }) acc) s1
  match r.2 with
  | Except.ok url =>
      patchById scene.id (fun s =>
        { s with videoGenerationStatus := VGStatus.done,
                 generatedVideoUrl := some url }) s2
  | Except.error e =>
      patchById scene.id (fun s =>
        { s with videoGenerationStatus := VGStatus.error,
                 videoGenerationProgress := some e }) s2

/-- Model of `handleCreateVeoVideo`: guard on prompt and start frame only,
then run the job; every throw inside the try (submission, polling, missing
link, download) is caught and becomes the error patch.  `none` models the
call never returning because the polling loop never observes completion. -/
def handleCreateVeoVideo (scenes : List VideoScene) (scene : VideoScene)
    (submit : Except String (List VeoOp))
    (fetch : String → Except String String) : Option (List VideoScene) :=
  if runGuard scene then
    (generateVeoVideo submit fetch).map (runSettle scenes scene)
  else
    some scenes

/-! ### Helper lemmas about the batch and the patch combinator -/

/-- Default panel used only as a `List.getD` fallback in lemma statements. -/
def defaultPanel : InitialSceneData :=
  { sceneDescription := "", narrative := "", duration := 0
    charactersInScene := [], sourcePageIndex := 0
    recommendedModel := VideoModelId.seedance, reasoning := "" }

theorem length_mkPlaceholdersAux (ts : ℕ) (l : List InitialSceneData) :
    ∀ i, (mkPlaceholdersAux ts i l).length = l.length := by
  induction l with
  | nil => intro i; rfl
  | cons p rest ih => intro i; simp [mkPlaceholdersAux, ih]

theorem length_mkPlaceholders (ts : ℕ) (panels : List InitialSceneData) :
    (mkPlaceholders ts panels).length = panels.length :=
  length_mkPlaceholdersAux ts panels 0

theorem getD_mkPlaceholdersAux (ts : ℕ) (l : List InitialSceneData) :
    ∀ i j, j < l.length →
      (mkPlaceholdersAux ts i l).getD j defaultScene
        = mkPlaceholder ts (i + j) (l.getD j defaultPanel) := by
  induction l with
  | nil => intro i j hj; simp at hj
  | cons p rest ih =>
    intro i j hj
    cases j with
    | zero => rfl
    | succ j' =>
      have hj' : j' < rest.length := by simpa using hj
      have := ih (i + 1) j' hj'
      simpa [mkPlaceholdersAux, Nat.add_assoc, Nat.add_comm 1 j'] using this

theorem getD_mkPlaceholders (ts : ℕ) (panels : List InitialSceneData)
    (j : ℕ) (hj : j < panels.length) :
    (mkPlaceholders ts panels).getD j defaultScene
      = mkPlaceholder ts j (panels.getD j defaultPanel) := by
  simpa using getD_mkPlaceholdersAux ts panels 0 j hj

theorem length_patchById (pid : String) (f : VideoScene → VideoScene)
    (scenes : List VideoScene) :
    (patchById pid f scenes).length = scenes.length := by
  simp [patchById]

theorem getD_patchById (pid : String) (f : VideoScene → VideoScene)
    (scenes : List VideoScene) (i : ℕ) (hi : i < scenes.length) :
    (patchById pid f scenes).getD i defaultScene
      = (if (scenes.getD i defaultScene).id == pid
         then f (scenes.getD i defaultScene) else scenes.getD i defaultScene) := by
  have hi' : i < (patchById pid f scenes).length := by
    rw [length_patchById]; exact hi
  rw [List.getD_eq_getElem _ _ hi', List.getD_eq_getElem _ _ hi]
  simp [patchById]

theorem map_id_patchById (pid : String) (f : VideoScene → VideoScene)
    (scenes : List VideoScene) (hf : ∀ s, (f s).id = s.id) :
    (patchById pid f scenes).map (fun s => s.id) = scenes.map (fun s => s.id) := by
  unfold patchById
  rw [List.map_map]
  apply List.map_congr_left
  intro a _
  by_cases h : a.id == pid
  · simp [Function.comp, h, hf]
  · simp [Function.comp, h]

/-! ### Concrete sample data used by counterexamples and witnesses -/

def sampleRoster : List CharacterInfo :=
  [{ name := "Mina", description := "short black hair, red scarf" }]

def samplePanelA : InitialSceneData :=
  { sceneDescription := "Mina stands on a rooftop at dusk"
    narrative := "Mina turns toward the camera"
    duration := 5, charactersInScene := ["Mina"], sourcePageIndex := 0
    recommendedModel := VideoModelId.veo, reasoning := "dialogue heavy" }

def samplePanelB : InitialSceneData :=
  { sceneDescription := "Mina leaps across the gap"
    narrative := "Mina lands and rolls"
    duration := 7, charactersInScene := ["Mina"], sourcePageIndex := 1
    recommendedModel := VideoModelId.hailuo, reasoning := "dynamic motion" }

/-- Raw panel whose service-reported duration is 0 and whose page index is
out of range for a 1-page batch. -/
def rawPanelZero : RawPanel :=
  { sceneDescription := "A blink", narrative := "An eye blinks"
    duration := 0, charactersInScene := [], sourcePageIndex := 5 }

/-- Raw panel with an ordinary in-range duration. -/
def rawPanelFour : RawPanel :=
  { sceneDescription := "Rain falls", narrative := "Droplets splash"
    duration := 4, charactersInScene := [], sourcePageIndex := 2 }

/-- Raw panel used for the recommendation-failure scenarios. -/
def rawPanelNet : RawPanel :=
  { sceneDescription := "A duel in the courtyard", narrative := "Swords clash"
    duration := 4, charactersInScene := [], sourcePageIndex := 0 }

/-! ### Claim C5 — prompt composition is deterministic and total -/

/-- C5: prompt composition is deterministic and total — for every (scene,
roster) pair, computing the prompt map twice yields identical prompt text
for each of the four backend identifiers (seedance, hailuo, veo, kling); the
embedding is a total pure function with no I/O and no failure mode, so the
two computations are literally the same value, componentwise the four
template renderings. -/
theorem c5_promptComposer_pure (scene : InitialSceneData)
    (roster : List CharacterInfo) :
    generateAllModelPrompts scene roster = generateAllModelPrompts scene roster
    ∧ (generateAllModelPrompts scene roster).seedance = generateSeedancePrompt scene roster
    ∧ (generateAllModelPrompts scene roster).hailuo = generateHailuoPrompt scene roster
    ∧ (generateAllModelPrompts scene roster).veo = generateVeoPrompt scene roster
    ∧ (generateAllModelPrompts scene roster).kling = generateKlingPrompt scene roster :=
  ⟨rfl, rfl, rfl, rfl, rfl⟩

/-! ### Claim C2 — decomposition invariants on duration and page index -/

theorem jsRound_zero : jsRound 0 = 0 := by
  rw [jsRound, zero_add, Int.floor_eq_zero_iff]
  constructor <;> norm_num

/-- C2 counterexample: a service-reported duration of 0 is stored as 0
(`Math.min(Math.round(0), 10) = 0`), violating `1 ≤ duration`, and a
service-reported `sourcePageIndex` of 5 is stored unvalidated although the
batch has a single page, violating `sourcePageIndex < numPages`. -/
theorem c2_counterexample :
    generateStoryboardFromPages (Except.ok [rawPanelZero])
        (fun _ => RecommendOutcome.parsed VideoModelId.veo "ok")
      = Except.ok [enrichPanel rawPanelZero VideoModelId.veo "ok"]
    ∧ (enrichPanel rawPanelZero VideoModelId.veo "ok").duration = 0
    ∧ (enrichPanel rawPanelZero VideoModelId.veo "ok").sourcePageIndex = 5
    ∧ (mkPlaceholder 1700 0 (enrichPanel rawPanelZero VideoModelId.veo "ok")).duration = 0
    ∧ ¬(1 ≤ (enrichPanel rawPanelZero VideoModelId.veo "ok").duration
        ∧ 0 ≤ (enrichPanel rawPanelZero VideoModelId.veo "ok").sourcePageIndex
        ∧ (enrichPanel rawPanelZero VideoModelId.veo "ok").sourcePageIndex < 1) := by
  have hdur : (enrichPanel rawPanelZero VideoModelId.veo "ok").duration = 0 := by
    show clampDuration (0 : ℚ) = 0
    rw [clampDuration, jsRound_zero]
    omega
  refine ⟨rfl, hdur, rfl, hdur, ?_⟩
  rintro ⟨h1, -, -⟩
  rw [hdur] at h1
  exact absurd h1 (by norm_num)

/-- C2 amended: after decomposition the orchestrator stores
`duration = min (round d) 10` — an integer at most 10 — and passes
`sourcePageIndex` through unvalidated; the invariants `1 ≤ duration` and
`0 ≤ sourcePageIndex < numPages` hold whenever the service-reported
duration is at least 1 and the reported index is in range (neither is
enforced by the code). -/
theorem c2_amended (p : RawPanel) (m : VideoModelId) (r : String)
    (numPages : ℤ) (hd : (1 : ℚ) ≤ p.duration)
    (hlo : 0 ≤ p.sourcePageIndex) (hhi : p.sourcePageIndex < numPages) :
    (enrichPanel p m r).duration = min (jsRound p.duration) 10
    ∧ 1 ≤ (enrichPanel p m r).duration
    ∧ (enrichPanel p m r).duration ≤ 10
    ∧ 0 ≤ (enrichPanel p m r).sourcePageIndex
    ∧ (enrichPanel p m r).sourcePageIndex < numPages := by
  refine ⟨rfl, ?_, min_le_right _ _, hlo, hhi⟩
  have h1 : (1 : ℤ) ≤ jsRound p.duration := by
    rw [jsRound]
    refine Int.le_floor.mpr ?_
    push_cast
    linarith
  exact le_min h1 (by norm_num)

/-- C2 amended witness at a concrete in-range panel. -/
theorem c2_amended_witness :
    (enrichPanel rawPanelFour VideoModelId.kling "k").duration
        = min (jsRound rawPanelFour.duration) 10
    ∧ 1 ≤ (enrichPanel rawPanelFour VideoModelId.kling "k").duration
    ∧ (enrichPanel rawPanelFour VideoModelId.kling "k").duration ≤ 10
    ∧ 0 ≤ (enrichPanel rawPanelFour VideoModelId.kling "k").sourcePageIndex
    ∧ (enrichPanel rawPanelFour VideoModelId.kling "k").sourcePageIndex < 3 :=
  c2_amended rawPanelFour VideoModelId.kling "k" 3 (by decide) (by decide) (by decide)

/-! ### Claim C7 — model recommendation failure handling -/

/-- C7 counterexample: a transport failure of the recommendation call is not
replaced by the seedance fallback — it rejects the enrichment `Promise.all`
and the whole storyboard build fails with the generic error, so
recommendation failure can be build-fatal (a fortiori scene-fatal). -/
theorem c7_counterexample :
    generateStoryboardFromPages (Except.ok [rawPanelNet])
        (fun _ => RecommendOutcome.transportError "network unreachable")
      = Except.error "Failed to get a valid storyboard from AI." := by
  rfl

/-- Total description of the enrichment when no recommendation call fails at
the transport layer: a parse failure is replaced by the seedance default and
its fixed reasoning string, a parsed recommendation is used as is. -/
def enrichPanelsTotal (rec : ℕ → RecommendOutcome) :
    ℕ → List RawPanel → List InitialSceneData
  | _, [] => []
  | i, p :: rest =>
    (match rec i with
     | RecommendOutcome.parsed m r => enrichPanel p m r
     | _ => enrichPanel p VideoModelId.seedance
         "Default recommendation due to an error.") ::
      enrichPanelsTotal rec (i + 1) rest

theorem enrichPanels_eq_total (rec : ℕ → RecommendOutcome)
    (h : ∀ i m, rec i ≠ RecommendOutcome.transportError m) :
    ∀ (i : ℕ) (l : List RawPanel),
      enrichPanels rec i l = Except.ok (enrichPanelsTotal rec i l) := by
  intro i l
  induction l generalizing i with
  | nil => rfl
  | cons p rest ih =>
    have htail := ih (i + 1)
    cases hrec : rec i with
    | transportError m => exact absurd hrec (h i m)
    | parseFailure =>
      simp only [enrichPanels, enrichPanelsTotal, hrec, recommendVideoModel]
      rw [htail]
      rfl
    | parsed m r =>
      simp only [enrichPanels, enrichPanelsTotal, hrec, recommendVideoModel]
      rw [htail]
      rfl

/-- C7 amended: only a parse failure of the recommendation response is
replaced by the default model (seedance, the first configured backend) with
the fixed fallback reasoning string, and the build then continues; a
transport failure of the recommendation call itself propagates and aborts
the whole storyboard build. -/
theorem c7_amended (l : List RawPanel) (rec : ℕ → RecommendOutcome)
    (h : ∀ i m, rec i ≠ RecommendOutcome.transportError m) :
    generateStoryboardFromPages (Except.ok l) rec
      = Except.ok (enrichPanelsTotal rec 0 l)
    ∧ recommendVideoModel RecommendOutcome.parseFailure
      = Except.ok (VideoModelId.seedance, "Default recommendation due to an error.") := by
  refine ⟨?_, rfl⟩
  simp [generateStoryboardFromPages, enrichPanels_eq_total rec h 0 l]

/-- C7 amended witness: a single panel whose recommendation response fails
to parse still yields a storyboard, carrying the seedance fallback. -/
theorem c7_amended_witness :
    generateStoryboardFromPages (Except.ok [rawPanelNet])
        (fun _ => RecommendOutcome.parseFailure)
      = Except.ok (enrichPanelsTotal (fun _ => RecommendOutcome.parseFailure) 0 [rawPanelNet])
    ∧ recommendVideoModel RecommendOutcome.parseFailure
      = Except.ok (VideoModelId.seedance, "Default recommendation due to an error.") :=
  c7_amended [rawPanelNet] (fun _ => RecommendOutcome.parseFailure)
    (fun _ _ hcontra => RecommendOutcome.noConfusion hcontra)

/-! ### Claim C1 — per-scene frame failure during the initial build -/

def c1StartFrames : ℕ → Except String String :=
  fun _ => Except.ok "data:image/png;base64,STARTFRAME"

/-- End-frame synthesis succeeds for scene 0 and fails for scene 1. -/
def c1EndFrames : ℕ → Except String String :=
  fun i =>
    if i == 0 then Except.ok "data:image/png;base64,ENDFRAME"
    else Except.error "AI did not return an end frame for the webtoon scene."

/-- C1: the claim asserts a StartFrame or EndFrame failure is isolated to
its one scene while siblings stay populated; on this two-scene batch the
code instead lets the rejection escape the sequential loop to the single
catch block, which clears the whole storyboard (`setScenes([])`): after
scene 0 has fully completed, scene 1's end-frame failure leaves zero scenes,
not one populated sibling plus one failed scene. -/
theorem c1_endFrame_failure_clears_storyboard :
    handleGenerateStoryboard 1700 sampleRoster
        (Except.ok [samplePanelA, samplePanelB]) c1StartFrames c1EndFrames = []
    ∧ buildLoop 1700 sampleRoster c1StartFrames c1EndFrames 0
        [samplePanelA, samplePanelB] (mkPlaceholders 1700 [samplePanelA, samplePanelB])
      = Except.error "AI did not return an end frame for the webtoon scene."
    ∧ (handleGenerateStoryboard 1700 sampleRoster
        (Except.ok [samplePanelA, samplePanelB]) c1StartFrames c1EndFrames).length ≠ 2 := by
  have h0 : handleGenerateStoryboard 1700 sampleRoster
      (Except.ok [samplePanelA, samplePanelB]) c1StartFrames c1EndFrames = [] := rfl
  refine ⟨h0, rfl, ?_⟩
  rw [h0]
  decide

/-! ### Claim C8 — scenario D: poll sequence [pending, pending, done(X)] -/

def promptsD : ModelPrompts :=
  { seedance := "seedance prompt", hailuo := "hailuo prompt"
    veo := "veo prompt", kling := "kling prompt" }

def sceneD : VideoScene :=
  { id := "scene-D", description := "Mina waves", duration := 5
    sourcePageIndex := 0, charactersInScene := ["Mina"]
    recommendedModel := some VideoModelId.veo, reasoning := some "audio"
    startFrame := some "data:image/png;base64,S"
    endFrame := some "data:image/png;base64,E"
    prompts := some promptsD, isLoading := false
    videoGenerationStatus := VGStatus.idle
    videoGenerationProgress := none, generatedVideoUrl := none }

/-- Operation snapshots observed by the runner: the submission returns a
pending operation, the first poll still reports pending, the second poll
reports done with download uri X. -/
def opsD : List VeoOp :=
  [{ done := false, errorMsg := none, uri := none },
   { done := false, errorMsg := none, uri := none },
   { done := true, errorMsg := none, uri := some "X" }]

/-- C8: on the job state sequence [pending, pending, done(url=X)] the run
settles with `videoGenerationStatus = done` and `generatedVideoUrl`
populated with the object URL created from the artifact downloaded at X,
and the caller's progress callback observes exactly 2 rotating progress
messages between the initial message and completion. -/
theorem c8_scenario_d :
    generateVeoVideo (Except.ok opsD) (fun u => Except.ok u)
      = some (["Starting video generation...", "Casting characters...",
               "Setting up the scene...", "Fetching video..."],
              Except.ok (createObjectURL "X"))
    ∧ List.countP (fun m => progressMessages.contains m)
        ["Starting video generation...", "Casting characters...",
         "Setting up the scene...", "Fetching video..."] = 2
    ∧ handleCreateVeoVideo [sceneD] sceneD (Except.ok opsD) (fun u => Except.ok u)
      = some [{ sceneD with
                videoGenerationStatus := VGStatus.done
                videoGenerationProgress := some "Fetching video..."
                generatedVideoUrl := some (createObjectURL "X") }] := by
  exact ⟨rfl, by decide, by decide⟩

/-! ### Claim C4 — Run's guard does not require idle status -/

def promptsP : ModelPrompts :=
  { seedance := "sp", hailuo := "hp", veo := "vp", kling := "kp" }

/-- A scene already in `pending`, with prompt and start frame present. -/
def scenePending : VideoScene :=
  { id := "scene-P", description := "Mina runs", duration := 6
    sourcePageIndex := 1, charactersInScene := ["Mina"]
    recommendedModel := some VideoModelId.veo, reasoning := some "pacing"
    startFrame := some "data:image/png;base64,P"
    endFrame := some "data:image/png;base64,Q"
    prompts := some promptsP, isLoading := false
    videoGenerationStatus := VGStatus.pending
    videoGenerationProgress := some "Casting characters..."
    generatedVideoUrl := none }

def opDoneY : VeoOp := { done := true, errorMsg := none, uri := some "Y" }

/-- C4 counterexample: `handleCreateVeoVideo` checks only the veo prompt
and the start frame, so invoking it on a scene whose status is already
`pending` is neither a no-op nor an explicit error — a second job is
submitted and runs to completion. -/
theorem c4_counterexample :
    scenePending.videoGenerationStatus = VGStatus.pending
    ∧ runGuard scenePending = true
    ∧ handleCreateVeoVideo [scenePending] scenePending (Except.ok [opDoneY])
        (fun u => Except.ok u)
      = some [{ scenePending with
                videoGenerationStatus := VGStatus.done
                videoGenerationProgress := some "Fetching video..."
                generatedVideoUrl := some (createObjectURL "Y") }]
    ∧ handleCreateVeoVideo [scenePending] scenePending (Except.ok [opDoneY])
        (fun u => Except.ok u) ≠ some [scenePending] := by
  refine ⟨rfl, rfl, ?_, ?_⟩ <;> decide

/-- C4 amended: `Run`'s only precondition is a non-empty veo prompt and a
non-empty start frame; `videoGenerationStatus` is not consulted (the guard
is invariant under it), a failing guard makes the call a no-op, and a
passing guard runs the job regardless of the current status, so a second
job can be started on a `pending` scene. -/
theorem c4_amended (scenes : List VideoScene) (scene : VideoScene)
    (submit : Except String (List VeoOp)) (fetch : String → Except String String) :
    (runGuard scene = false → handleCreateVeoVideo scenes scene submit fetch = some scenes)
    ∧ (∀ st, runGuard { scene with videoGenerationStatus := st } = runGuard scene)
    ∧ (runGuard scene = true → handleCreateVeoVideo scenes scene submit fetch
        = (generateVeoVideo submit fetch).map (runSettle scenes scene)) := by
  refine ⟨?_, fun st => rfl, ?_⟩
  · intro h; simp [handleCreateVeoVideo, h]
  · intro h; simp [handleCreateVeoVideo, h]

def sceneNoPrompt : VideoScene :=
  { defaultScene with id := "scene-N", startFrame := some "data:image/png;base64,N" }

/-- C4 amended witness: a scene without prompts fails the guard and the
call is a no-op. -/
theorem c4_amended_witness :
    runGuard sceneNoPrompt = false
    ∧ handleCreateVeoVideo [sceneNoPrompt] sceneNoPrompt (Except.ok [opDoneY])
        (fun u => Except.ok u) = some [sceneNoPrompt] :=
  ⟨by decide,
   (c4_amended [sceneNoPrompt] sceneNoPrompt (Except.ok [opDoneY])
      (fun u => Except.ok u)).1 (by decide)⟩

/-! ### Claim C3 — Run always returns a settled state -/

theorem handleCreateVeoVideo_guard_true (scenes : List VideoScene)
    (scene : VideoScene) (submit : Except String (List VeoOp))
    (fetch : String → Except String String) (h : runGuard scene = true) :
    handleCreateVeoVideo scenes scene submit fetch
      = (generateVeoVideo submit fetch).map (runSettle scenes scene) := by
  simp [handleCreateVeoVideo, h]

theorem runSettle_settled (scenes : List VideoScene) (scene : VideoScene)
    (r : List String × Except String String) (s' : VideoScene)
    (hs' : s' ∈ runSettle scenes scene r) (hid : s'.id = scene.id) :
    (s'.videoGenerationStatus = VGStatus.done ∨ s'.videoGenerationStatus = VGStatus.error)
    ∧ (s'.videoGenerationStatus = VGStatus.done → s'.generatedVideoUrl.isSome = true)
    ∧ (s'.videoGenerationStatus = VGStatus.error → s'.videoGenerationProgress.isSome = true) := by
  obtain ⟨msgs, res⟩ := r
  cases res with
  | ok url =>
    simp only [runSettle, patchById, List.mem_map] at hs'
    obtain ⟨t, -, heq⟩ := hs'
    by_cases ht : t.id == scene.id
    · rw [if_pos ht] at heq
      subst heq
      exact ⟨Or.inl rfl, fun _ => rfl, fun hcontra => by simp at hcontra⟩
    · rw [if_neg ht] at heq
      subst heq
      exact absurd (by simpa using hid) (by simpa using ht)
  | error e =>
    simp only [runSettle, patchById, List.mem_map] at hs'
    obtain ⟨t, -, heq⟩ := hs'
    by_cases ht : t.id == scene.id
    · rw [if_pos ht] at heq
      subst heq
      exact ⟨Or.inr rfl, fun hcontra => by simp at hcontra, fun _ => rfl⟩
    · rw [if_neg ht] at heq
      subst heq
      exact absurd (by simpa using hid) (by simpa using ht)

/-- C3: for every scene with a veo prompt and a start frame present (the
guard), whenever `handleCreateVeoVideo` returns control (`= some final`),
every scene of the final list carrying the target id is settled: its status
is exactly `done` or `error` (never `pending`), `done` implies
`generatedVideoUrl` is populated, `error` implies `videoGenerationProgress`
holds the error message; submission, polling and download failures all take
the `error` route instead of escaping to the caller. -/
theorem c3_run_settles (scenes : List VideoScene) (scene : VideoScene)
    (submit : Except String (List VeoOp)) (fetch : String → Except String String)
    (final : List VideoScene)
    (hguard : runGuard scene = true)
    (hrun : handleCreateVeoVideo scenes scene submit fetch = some final)
    (s' : VideoScene) (hs' : s' ∈ final) (hid : s'.id = scene.id) :
    (s'.videoGenerationStatus = VGStatus.done ∨ s'.videoGenerationStatus = VGStatus.error)
    ∧ (s'.videoGenerationStatus = VGStatus.done → s'.generatedVideoUrl.isSome = true)
    ∧ (s'.videoGenerationStatus = VGStatus.error → s'.videoGenerationProgress.isSome = true) := by
  rw [handleCreateVeoVideo_guard_true scenes scene submit fetch hguard] at hrun
  cases hgen : generateVeoVideo submit fetch with
  | none => rw [hgen] at hrun; simp at hrun
  | some r =>
    rw [hgen] at hrun
    simp only [Option.map_some', Option.some_inj] at hrun
    subst hrun
    exact runSettle_settled scenes scene r s' hs' hid

def promptsC : ModelPrompts :=
  { seedance := "sc", hailuo := "hc", veo := "vc", kling := "kc" }

def sceneC : VideoScene :=
  { id := "scene-C", description := "Mina smiles", duration := 3
    sourcePageIndex := 0, charactersInScene := ["Mina"]
    recommendedModel := some VideoModelId.veo, reasoning := some "dialogue"
    startFrame := some "data:image/png;base64,C"
    endFrame := some "data:image/png;base64,D"
    prompts := some promptsC, isLoading := false
    videoGenerationStatus := VGStatus.idle
    videoGenerationProgress := none, generatedVideoUrl := none }

def sceneCdone : VideoScene :=
  { sceneC with
    videoGenerationStatus := VGStatus.done
    videoGenerationProgress := some "Fetching video..."
    generatedVideoUrl := some (createObjectURL "Z") }

/-- C3 witness: a concrete one-poll run that settles in `done`. -/
theorem c3_run_settles_witness :
    (sceneCdone.videoGenerationStatus = VGStatus.done
      ∨ sceneCdone.videoGenerationStatus = VGStatus.error)
    ∧ (sceneCdone.videoGenerationStatus = VGStatus.done →
        sceneCdone.generatedVideoUrl.isSome = true)
    ∧ (sceneCdone.videoGenerationStatus = VGStatus.error →
        sceneCdone.videoGenerationProgress.isSome = true) :=
  c3_run_settles [sceneC] sceneC
    (Except.ok [{ done := true, errorMsg := none, uri := some "Z" }])
    (fun u => Except.ok u) [sceneCdone] (by decide) (by decide)
    sceneCdone (by decide) (by decide)

/-! ### Claim C6 — frame regeneration touches only the targeted frame -/

/-- A scene with both frame fields blanked; two scenes agree on every field
other than `startFrame` and `endFrame` iff their `eraseFrames` agree. -/
def eraseFrames (s : VideoScene) : VideoScene :=
  { s with startFrame := none, endFrame := none }

/-- C6: regenerating one frame of one scene changes only that frame — on
success, the scene found by id keeps every non-frame field (including
`prompts` and all scalars) and, depending on the targeted frame, keeps the
other frame; scenes with a different id are returned unchanged; on failure
(or when the scene or its original frame is missing) the whole scene list is
returned unchanged. -/
theorem c6_regeneration_isolated (scenes : List VideoScene) (sid : String)
    (ft : FrameType) (res : Except String String) (e : String) (i : ℕ)
    (hi : i < scenes.length) :
    (res = Except.error e → handleRegenerateFrame scenes sid ft res = scenes)
    ∧ (handleRegenerateFrame scenes sid ft res).length = scenes.length
    ∧ ((scenes.getD i defaultScene).id ≠ sid →
        (handleRegenerateFrame scenes sid ft res).getD i defaultScene
          = scenes.getD i defaultScene)
    ∧ eraseFrames ((handleRegenerateFrame scenes sid ft res).getD i defaultScene)
        = eraseFrames (scenes.getD i defaultScene)
    ∧ (ft = FrameType.startFrame →
        ((handleRegenerateFrame scenes sid ft res).getD i defaultScene).endFrame
          = (scenes.getD i defaultScene).endFrame)
    ∧ (ft = FrameType.endFrame →
        ((handleRegenerateFrame scenes sid ft res).getD i defaultScene).startFrame
          = (scenes.getD i defaultScene).startFrame) := by
  have triv : handleRegenerateFrame scenes sid ft res = scenes →
      ((res = Except.error e → handleRegenerateFrame scenes sid ft res = scenes)
      ∧ (handleRegenerateFrame scenes sid ft res).length = scenes.length
      ∧ ((scenes.getD i defaultScene).id ≠ sid →
          (handleRegenerateFrame scenes sid ft res).getD i defaultScene
            = scenes.getD i defaultScene)
      ∧ eraseFrames ((handleRegenerateFrame scenes sid ft res).getD i defaultScene)
          = eraseFrames (scenes.getD i defaultScene)
      ∧ (ft = FrameType.startFrame →
          ((handleRegenerateFrame scenes sid ft res).getD i defaultScene).endFrame
            = (scenes.getD i defaultScene).endFrame)
      ∧ (ft = FrameType.endFrame →
          ((handleRegenerateFrame scenes sid ft res).getD i defaultScene).startFrame
            = (scenes.getD i defaultScene).startFrame)) := by
    intro hres
    rw [hres]
    exact ⟨fun _ => rfl, rfl, fun _ => rfl, rfl, fun _ => rfl, fun _ => rfl⟩
  cases hfind : scenes.find? (fun s => s.id == sid) with
  | none => exact triv (by simp [handleRegenerateFrame, hfind])
  | some t =>
    by_cases htr : strTruthy (frameOf t ft) = true
    · cases res with
      | error e2 => exact triv (by simp [handleRegenerateFrame, hfind, htr])
      | ok v =>
        have hres : handleRegenerateFrame scenes sid ft (Except.ok v)
            = patchById sid (fun s => setFrame s ft v) scenes := by
          simp [handleRegenerateFrame, hfind, htr]
        rw [hres, length_patchById,
          getD_patchById sid (fun s => setFrame s ft v) scenes i hi]
        by_cases hsid : ((scenes.getD i defaultScene).id == sid) = true
        · rw [if_pos hsid]
          cases ft with
          | startFrame =>
            exact ⟨fun h => Except.noConfusion h, rfl,
              fun hne => absurd (by simpa using hsid) hne, rfl,
              fun _ => rfl, fun h => FrameType.noConfusion h⟩
          | endFrame =>
            exact ⟨fun h => Except.noConfusion h, rfl,
              fun hne => absurd (by simpa using hsid) hne, rfl,
              fun h => FrameType.noConfusion h, fun _ => rfl⟩
        · rw [if_neg hsid]
          exact ⟨fun h => Except.noConfusion h, rfl, fun _ => rfl, rfl,
            fun _ => rfl, fun _ => rfl⟩
    · exact triv (by simp [handleRegenerateFrame, hfind, htr])

def sceneR : VideoScene :=
  { id := "scene-R", description := "Mina reads", duration := 4
    sourcePageIndex := 0, charactersInScene := ["Mina"]
    recommendedModel := some VideoModelId.seedance, reasoning := some "calm"
    startFrame := some "data:image/png;base64,R0"
    endFrame := some "data:image/png;base64,R1"
    prompts := some { seedance := "sr", hailuo := "hr", veo := "vr", kling := "kr" }
    isLoading := false, videoGenerationStatus := VGStatus.idle
    videoGenerationProgress := none, generatedVideoUrl := none }

/-- C6 witness: a successful start-frame regeneration on a concrete scene. -/
theorem c6_regeneration_isolated_witness :
    (Except.ok "data:image/png;base64,R2" = Except.error "boom" →
      handleRegenerateFrame [sceneR] "scene-R" FrameType.startFrame
        (Except.ok "data:image/png;base64,R2") = [sceneR])
    ∧ (handleRegenerateFrame [sceneR] "scene-R" FrameType.startFrame
        (Except.ok "data:image/png;base64,R2")).length = [sceneR].length
    ∧ (([sceneR].getD 0 defaultScene).id ≠ "scene-R" →
        (handleRegenerateFrame [sceneR] "scene-R" FrameType.startFrame
          (Except.ok "data:image/png;base64,R2")).getD 0 defaultScene
          = [sceneR].getD 0 defaultScene)
    ∧ eraseFrames ((handleRegenerateFrame [sceneR] "scene-R" FrameType.startFrame
          (Except.ok "data:image/png;base64,R2")).getD 0 defaultScene)
        = eraseFrames ([sceneR].getD 0 defaultScene)
    ∧ (FrameType.startFrame = FrameType.startFrame →
        ((handleRegenerateFrame [sceneR] "scene-R" FrameType.startFrame
          (Except.ok "data:image/png;base64,R2")).getD 0 defaultScene).endFrame
          = ([sceneR].getD 0 defaultScene).endFrame)
    ∧ (FrameType.startFrame = FrameType.endFrame →
        ((handleRegenerateFrame [sceneR] "scene-R" FrameType.startFrame
          (Except.ok "data:image/png;base64,R2")).getD 0 defaultScene).startFrame
          = ([sceneR].getD 0 defaultScene).startFrame) :=
  c6_regeneration_isolated [sceneR] "scene-R" FrameType.startFrame
    (Except.ok "data:image/png;base64,R2") "boom" 0 (by decide)

/-! ### Claim C9 — placeholder publication and order preservation -/

theorem length_eq_of_map_eq {α β : Type} {f : α → β} {l1 l2 : List α}
    (h : l1.map f = l2.map f) : l1.length = l2.length := by
  have h2 := congrArg List.length h
  simpa using h2

theorem mkPlaceholdersAux_all_loading (ts : ℕ) (l : List InitialSceneData) :
    ∀ i, (mkPlaceholdersAux ts i l).all
      (fun s => s.isLoading && (s.videoGenerationStatus == VGStatus.idle)) = true := by
  induction l with
  | nil => intro i; rfl
  | cons p rest ih =>
    intro i
    simp only [mkPlaceholdersAux, List.all_cons, ih (i + 1)]
    rfl

theorem mkPlaceholdersAux_map_description (ts : ℕ) (l : List InitialSceneData) :
    ∀ i, (mkPlaceholdersAux ts i l).map (fun s => s.description)
      = l.map (fun p => p.sceneDescription) := by
  induction l with
  | nil => intro i; rfl
  | cons p rest ih =>
    intro i
    simp only [mkPlaceholdersAux, List.map_cons, ih (i + 1)]
    rfl

theorem handleRegenerateFrame_map_id (scenes : List VideoScene) (sid : String)
    (ft : FrameType) (res : Except String String) :
    (handleRegenerateFrame scenes sid ft res).map (fun s => s.id)
      = scenes.map (fun s => s.id) := by
  cases hfind : scenes.find? (fun s => s.id == sid) with
  | none => simp [handleRegenerateFrame, hfind]
  | some t =>
    by_cases htr : strTruthy (frameOf t ft) = true
    · cases res with
      | error e => simp [handleRegenerateFrame, hfind, htr]
      | ok v =>
        have hres : handleRegenerateFrame scenes sid ft (Except.ok v)
            = patchById sid (fun s => setFrame s ft v) scenes := by
          simp [handleRegenerateFrame, hfind, htr]
        rw [hres]
        exact map_id_patchById sid (fun s => setFrame s ft v) scenes
          (fun s => by cases ft <;> rfl)
    · simp [handleRegenerateFrame, hfind, htr]

theorem foldl_progress_map_id (pid : String) (msgs : List String) :
    ∀ acc : List VideoScene,
      (msgs.foldl (fun acc m => patchById pid
        (fun s => { s with videoGenerationProgress := some m }) acc) acc).map
          (fun s => s.id)
        = acc.map (fun s => s.id) := by
  induction msgs with
  | nil => intro acc; rfl
  | cons m rest ih =>
    intro acc
    simp only [List.foldl_cons]
    exact (ih _).trans (map_id_patchById _ _ _ (fun s => rfl))

theorem runSettle_map_id (scenes : List VideoScene) (scene : VideoScene)
    (r : List String × Except String String) :
    (runSettle scenes scene r).map (fun s => s.id) = scenes.map (fun s => s.id) := by
  obtain ⟨msgs, res⟩ := r
  have hfold := foldl_progress_map_id scene.id msgs
  have h1 : (patchById scene.id (fun s =>
      { s with videoGenerationStatus := VGStatus.pending,
               videoGenerationProgress := some "Initializing..." }) scenes).map
        (fun s => s.id)
      = scenes.map (fun s => s.id) := map_id_patchById _ _ _ (fun s => rfl)
  have h2 := hfold (patchById scene.id (fun s =>
      { s with videoGenerationStatus := VGStatus.pending,
               videoGenerationProgress := some "Initializing..." }) scenes)
  cases res with
  | ok url =>
    have h3 : ∀ acc : List VideoScene, (patchById scene.id (fun s =>
        { s with videoGenerationStatus := VGStatus.done,
                 generatedVideoUrl := some url }) acc).map (fun s => s.id)
        = acc.map (fun s => s.id) := fun acc => map_id_patchById _ _ _ (fun s => rfl)
    dsimp only [runSettle]
    exact (h3 _).trans (h2.trans h1)
  | error e =>
    have h3 : ∀ acc : List VideoScene, (patchById scene.id (fun s =>
        { s with videoGenerationStatus := VGStatus.error,
                 videoGenerationProgress := some e }) acc).map (fun s => s.id)
        = acc.map (fun s => s.id) := fun acc => map_id_patchById _ _ _ (fun s => rfl)
    dsimp only [runSettle]
    exact (h3 _).trans (h2.trans h1)

/-- C9: if decomposition returns N panels the orchestrator publishes exactly
N placeholder scenes in decomposition order, each with `isLoading = true`
and `videoGenerationStatus = idle`; and every subsequent update — the build
loop's frame/prompt completion patch, a frame regeneration, and the video
job's status and progress patches — preserves the number and the id order
of the scenes. -/
theorem c9_placeholders_and_patch_order (ts : ℕ) (panels : List InitialSceneData)
    (scenes2 : List VideoScene) (pid sf ef : String) (pr : ModelPrompts)
    (sid : String) (ft : FrameType) (res : Except String String)
    (scene : VideoScene) (r : List String × Except String String) :
    (mkPlaceholders ts panels).length = panels.length
    ∧ (mkPlaceholders ts panels).all
        (fun s => s.isLoading && (s.videoGenerationStatus == VGStatus.idle)) = true
    ∧ (mkPlaceholders ts panels).map (fun s => s.description)
        = panels.map (fun p => p.sceneDescription)
    ∧ (completeScenePatch pid sf ef pr scenes2).map (fun s => s.id)
        = scenes2.map (fun s => s.id)
    ∧ (completeScenePatch pid sf ef pr scenes2).length = scenes2.length
    ∧ (handleRegenerateFrame scenes2 sid ft res).map (fun s => s.id)
        = scenes2.map (fun s => s.id)
    ∧ (handleRegenerateFrame scenes2 sid ft res).length = scenes2.length
    ∧ (runSettle scenes2 scene r).map (fun s => s.id) = scenes2.map (fun s => s.id)
    ∧ (runSettle scenes2 scene r).length = scenes2.length := by
  have hc : (completeScenePatch pid sf ef pr scenes2).map (fun s => s.id)
      = scenes2.map (fun s => s.id) :=
    map_id_patchById _ _ _ (fun s => rfl)
  have hr : (handleRegenerateFrame scenes2 sid ft res).map (fun s => s.id)
      = scenes2.map (fun s => s.id) :=
    handleRegenerateFrame_map_id scenes2 sid ft res
  have hv : (runSettle scenes2 scene r).map (fun s => s.id)
      = scenes2.map (fun s => s.id) :=
    runSettle_map_id scenes2 scene r
  exact ⟨length_mkPlaceholders ts panels,
    mkPlaceholdersAux_all_loading ts panels 0,
    mkPlaceholdersAux_map_description ts panels 0,
    hc, length_eq_of_map_eq hc, hr, length_eq_of_map_eq hr,
    hv, length_eq_of_map_eq hv⟩

/-! ### Claim C10 — scene ids are pairwise distinct; patches hit one scene -/

/-- C10: within one storyboard batch, the id of the m-th scene is the shared
timestamp prefix concatenated with the decimal index m, distinct scenes get
distinct ids, and a patch applied by the k-th scene's id rewrites exactly
position k of the list and leaves every other position unchanged. -/
theorem c10_ids_distinct_patch_unique (ts : ℕ) (panels : List InitialSceneData)
    (f : VideoScene → VideoScene) (k m : ℕ)
    (hk : k < panels.length) (hm : m < panels.length) :
    ((mkPlaceholders ts panels).getD m defaultScene).id = sceneId ts m
    ∧ (m ≠ k → sceneId ts m ≠ sceneId ts k)
    ∧ (patchById (sceneId ts k) f (mkPlaceholders ts panels)).getD m defaultScene
        = (if m = k then f ((mkPlaceholders ts panels).getD m defaultScene)
           else (mkPlaceholders ts panels).getD m defaultScene) := by
  have hm' : m < (mkPlaceholders ts panels).length := by
    rw [length_mkPlaceholders]; exact hm
  have hid : ((mkPlaceholders ts panels).getD m defaultScene).id = sceneId ts m := by
    rw [getD_mkPlaceholders ts panels m hm]; rfl
  refine ⟨hid, fun hne hcontra => hne (sceneId_inj hcontra), ?_⟩
  rw [getD_patchById _ _ _ _ hm', hid]
  by_cases hmk : m = k
  · subst hmk; simp
  · have hfalse : ¬(sceneId ts m == sceneId ts k) = true := by
      simp only [beq_iff_eq]
      exact fun hcontra => hmk (sceneId_inj hcontra)
    rw [if_neg hfalse, if_neg hmk]

/-- C10 witness: a concrete two-scene batch, patching by the id of scene 0
and inspecting position 1. -/
theorem c10_ids_distinct_patch_unique_witness :
    ((mkPlaceholders 1700 [samplePanelA, samplePanelB]).getD 1 defaultScene).id
        = sceneId 1700 1
    ∧ ((1 : ℕ) ≠ 0 → sceneId 1700 1 ≠ sceneId 1700 0)
    ∧ (patchById (sceneId 1700 0) (fun s => { s with isLoading := false })
        (mkPlaceholders 1700 [samplePanelA, samplePanelB])).getD 1 defaultScene
        = (if (1 : ℕ) = 0
           then (fun s => { s with isLoading := false })
             ((mkPlaceholders 1700 [samplePanelA, samplePanelB]).getD 1 defaultScene)
           else (mkPlaceholders 1700 [samplePanelA, samplePanelB]).getD 1 defaultScene) :=
  c10_ids_distinct_patch_unique 1700 [samplePanelA, samplePanelB]
    (fun s => { s with isLoading := false }) 0 1 (by decide) (by decide)

end Comicra
